import Mathlib

/-!
Shallow embedding of `lepton_viewer_rpi3.py` (Lepton thermal viewer for
Raspberry Pi): the frame queue and capture callback, the custom-LUT
builder and loader, the per-frame auto-gain and color-mapping steps, the
power/thermal state machine of the main render loop, and the process
exit behaviour of `LeptonViewer.run`.

Machine bytes are modelled as `Nat` (all values produced are shown, or
checked, to fit in a byte); Python floats are modelled as `Rat`; Python
exceptions as `Except` / explicit outcome types.
-/

/-! ### Configuration constants (source lines 85, 95, 110-115) -/

def CAM_WIDTH : Nat := 160
def CAM_HEIGHT : Nat := 120
def LCD_WIDTH : Nat := 240
def LCD_HEIGHT : Nat := 240
def CPU_GOVERNOR_SAVE : String := "powersave"
def CPU_GOVERNOR_RUN : String := "ondemand"

/-- Constant `CPU_TEMP_SHUTDOWN_CHECK_INTERVAL_S = 30` (seconds). -/
def CPU_TEMP_SHUTDOWN_CHECK_INTERVAL_S : ℚ := 30

/-- Constant `CPU_TEMP_LOG_INTERVAL_S = 300` (seconds). -/
def CPU_TEMP_LOG_INTERVAL_S : ℚ := 300

/-- Constant `CPU_TEMP_SHUTDOWN_THRESHOLD_C = 75.0` (degrees Celsius). -/
def CPU_TEMP_SHUTDOWN_THRESHOLD_C : ℚ := 75

/-- Constant `BUF_SIZE = 2`: capacity of the global `frame_queue`. -/
def BUF_SIZE : Nat := 2

/-! ### Frames and the frame queue

`frame_queue = Queue(BUF_SIZE)` is the only producer/consumer hand-off.
A queue is modelled as the list of buffered items, oldest first; `put`
appends at the back, `get` removes at the front, exactly as
`queue.Queue` does for a single producer and a single consumer. -/

/-- A frame as enqueued by the capture callback: the numpy array built
from the raw buffer, remembering its dimensions and raw bytes
(`reshape((CAM_HEIGHT, CAM_WIDTH, 2))` of a `width*height*2` byte buffer). -/
structure Frame where
  width : Nat
  height : Nat
  bytes : List Nat
  deriving DecidableEq, Repr

/-- The producer-side push of `py_frame_callback` (lines 130-133):
if the queue is not full, `put`; otherwise `get_nowait()` to evict the
oldest item and then `put` the new one.  The `except QueueEmpty: pass`
branch (full yet empty cannot happen with one producer) drops the new
frame. -/
def frame_queue_push (items : List Frame) (x : Frame) : List Frame :=
  if items.length < BUF_SIZE then items ++ [x]
  else
    match items with
    | [] => items
    | _ :: rest => rest ++ [x]

/-- The consumer-side `frame_queue.get(block=True, timeout=0.5)`
(line 536): on a non-empty queue it yields the oldest item; on a queue
still empty at the timeout it raises `QueueEmpty`, modelled as `none`
(the caller catches it and continues). -/
def frame_queue_get : List Frame → Option Frame × List Frame
  | [] => (none, [])
  | f :: rest => (some f, rest)

/-- A raw libuvc buffer as seen by `py_frame_callback`: the truthiness
of the `frame` pointer and of `frame.contents.data`, the reported
dimensions, and the payload bytes (`data_bytes` is the byte count the
callback reads, i.e. the length of `data`). -/
structure RawFrame where
  ptrValid : Bool
  dataValid : Bool
  width : Nat
  height : Nat
  data : List Nat
  deriving DecidableEq, Repr

/-- Model of `py_frame_callback` (lines 121-133): discard the buffer unless the
pointer and data are valid, the dimensions are exactly
`CAM_WIDTH x CAM_HEIGHT` and the byte count is exactly
`CAM_WIDTH * CAM_HEIGHT * 2`; otherwise enqueue the reshaped copy with
drop-oldest semantics. -/
def py_frame_callback (raw : RawFrame) (items : List Frame) : List Frame :=
  if ¬raw.ptrValid ∨ ¬raw.dataValid ∨ raw.width ≠ CAM_WIDTH ∨ raw.height ≠ CAM_HEIGHT then
    items
  else if raw.data.length ≠ CAM_WIDTH * CAM_HEIGHT * 2 then
    items
  else
    frame_queue_push items ⟨raw.width, raw.height, raw.data⟩

/-- The producer-boundary invariant of the spec: a frame has the
expected dimensions and exactly `width*height*2` bytes. -/
def goodFrame (f : Frame) : Prop :=
  f.width = CAM_WIDTH ∧ f.height = CAM_HEIGHT ∧
    f.bytes.length = CAM_WIDTH * CAM_HEIGHT * 2

instance (f : Frame) : Decidable (goodFrame f) := by
  unfold goodFrame; infer_instance

/-! ### Custom LUT construction (`LeptonViewer.create_custom_lut`, lines 214-261)

`np.linspace(start, stop, num)` over 3-component points interpolates
each component independently: sample `i` of component with endpoints
`a, b` is `a + i * (b - a) / (num - 1)` (for `num = 1` the sole sample
is `a`; in `Rat`, division by zero is zero, so the same formula covers
that case at `i = 0`).  `.astype(np.uint8)` truncates the float toward
zero; every value produced here lies in `[0, 255]`, so this is the
floor. -/

/-- Sample `i` of `np.linspace a b num` for one scalar component. -/
def linspaceSample (a b : ℚ) (num i : Nat) : ℚ :=
  a + i * (b - a) / ((num : ℚ) - 1)

/-- Cast `.astype(np.uint8)` on a nonnegative float below 256: truncation. -/
def toByte (q : ℚ) : Nat := (⌊q⌋).toNat

/-- A 3-component color point (BGR order, as in the source). -/
abbrev Color3 := ℚ × ℚ × ℚ

/-- A byte color triple, as stored in a finished LUT. -/
abbrev ByteColor := Nat × Nat × Nat

/-- Ramp `np.linspace(start, stop, num).astype(np.uint8)` over
3-component points: the list of `num` samples. -/
def linspace3 (a b : Color3) (num : Nat) : List ByteColor :=
  (List.range num).map fun i =>
    (toByte (linspaceSample a.1 b.1 num i),
     toByte (linspaceSample a.2.1 b.2.1 num i),
     toByte (linspaceSample a.2.2 b.2.2 num i))

/-- Result of `create_custom_lut`, with flags recording whether the two
fallback branches ran: `adjusted` is the `BLACK_TO_WHITE_STEP <= 0`
branch (line 235), `reinterpolated` the `len(custom_colors) != 256`
branch (line 250). -/
structure LutBuild where
  lut : List ByteColor
  adjusted : Bool
  reinterpolated : Bool
  deriving DecidableEq, Repr

/-- Lift a finished byte color back to a rational point (used by the
re-interpolation fallback, which calls `np.linspace` on already
truncated `uint8` endpoints). -/
def byteToColor3 (c : ByteColor) : Color3 := ((c.1 : ℚ), (c.2.1 : ℚ), (c.2.2 : ℚ))

/-- Model of `LeptonViewer.create_custom_lut(color, color_gradient_step)`
(lines 214-261).  Raises `ValueError` (modelled as `Except.error` with
the source message) when the step is outside `[1, 255]` or the color is
unsupported; otherwise builds a black-to-white ramp of length
`256 - step` concatenated with the channel gradient of length `step`,
with the two defensive fallback branches of the source. -/
def create_custom_lut (color : String) (color_gradient_step : Int) :
    Except String LutBuild :=
  if color_gradient_step ≤ 0 ∨ color_gradient_step ≥ 256 then
    .error "color_gradient_step must be between 1 and 255."
  else
    let endpoints? : Option (Color3 × Color3) :=
      if color = "red" then some ((64, 0, 0), (255, 0, 0))
      else if color = "green" then some ((0, 64, 0), (0, 255, 0))
      else if color = "blue" then some ((0, 0, 64), (0, 0, 255))
      else none
    match endpoints? with
    | none => .error "Unsupported color for LUT creation. Supported: red, green, blue."
    | some (c0, c1) =>
      let BLACK_TO_WHITE_STEP : Int := 256 - color_gradient_step
      let (custom_colors, adjusted) :=
        if BLACK_TO_WHITE_STEP ≤ 0 then
          (linspace3 c0 c1 256, true)
        else
          (linspace3 (0, 0, 0) (255, 255, 255) BLACK_TO_WHITE_STEP.toNat ++
             linspace3 c0 c1 color_gradient_step.toNat, false)
      let (custom_colors, reinterpolated) :=
        if custom_colors.length ≠ 256 then
          (linspace3 (byteToColor3 (custom_colors.headD (0, 0, 0)))
             (byteToColor3 (custom_colors.getLastD (0, 0, 0))) 256, true)
        else (custom_colors, false)
      .ok ⟨custom_colors, adjusted, reinterpolated⟩

/-! ### External LUT loading (`LeptonViewer.load_custom_luts`, lines 282-365)

The per-file processing of an already parsed list of 3-tuples: empty
tables are skipped, 256-entry tables are reshaped and accepted
unchanged, any other length is resampled with
`cv2.resize(lut_image, (1, 256), interpolation=cv2.INTER_LINEAR)` and
the result is shape-checked before being appended to the catalog.
`cv2.resize` with INTER_LINEAR maps destination row `i` to source
coordinate `(i + 1/2) * n / 256 - 1/2`, takes the two neighbouring
source rows (indices clamped to `[0, n-1]`) and blends them linearly;
the blend is rounded to the nearest integer (the source uses fixed-point
arithmetic; we model the rounding as round-half-up, which agrees on
every value the claims depend on). -/

/-- Clamp a possibly negative source index into `[0, n-1]`. -/
def clampIdx (n : Nat) (i : Int) : Nat := min i.toNat (n - 1)

/-- One destination row of `cv2.resize` INTER_LINEAR from `n` source
rows to 256 destination rows, one color component at a time. -/
def resizeSample (src : List ByteColor) (i : Nat) : ByteColor :=
  let n := src.length
  let f : ℚ := (i + 1 / 2) * n / 256 - 1 / 2
  let i0 : Int := ⌊f⌋
  let w : ℚ := f - i0
  let a := byteToColor3 (src.getD (clampIdx n i0) (0, 0, 0))
  let b := byteToColor3 (src.getD (clampIdx n (i0 + 1)) (0, 0, 0))
  ((round ((1 - w) * a.1 + w * b.1)).toNat,
   (round ((1 - w) * a.2.1 + w * b.2.1)).toNat,
   (round ((1 - w) * a.2.2 + w * b.2.2)).toNat)

/-- Resample `cv2.resize(lut_image, (1, 256), interpolation=cv2.INTER_LINEAR)`
on an `(n, 1, 3)` image: 256 resampled rows. -/
def resizeLinear256 (src : List ByteColor) : List ByteColor :=
  (List.range 256).map (resizeSample src)

/-- The per-table body of `load_custom_luts` (lines 306-357), applied to
a successfully parsed list of 3-tuples.  `none` means the table was
skipped; `some t` means `t` was appended to the catalog.  The final
shape check `lut_final.shape == (256, 1, 3)` is the length check on the
entry list (the resize path also runs `np.ascontiguousarray`, after
which the `C_CONTIGUOUS` flag it checks is true). -/
def process_lut_table (lut_values : List ByteColor) : Option (List ByteColor) :=
  let original_length := lut_values.length
  if original_length = 0 then none
  else
    let lut_final :=
      if original_length = 256 then lut_values
      else resizeLinear256 lut_values
    if lut_final.length = 256 then some lut_final else none

/-! ### Auto-gain (`process_and_display`, lines 547-556)

`cv2.minMaxLoc` finds the minimum and maximum of the grayscale frame;
if `max_val > min_val` the frame is rescaled with
`cv2.convertScaleAbs(frame, alpha, beta)`, which computes
`saturate_cast<uint8>(round(|alpha * x + beta|))` per pixel (rounding
to nearest, ties to even, as `cvRound` does); otherwise the frame is
returned unchanged.  A grayscale frame is a list of byte intensities. -/

/-- Rounding of `cvRound`: round to nearest, ties to even. -/
def cvRound (q : ℚ) : Int :=
  let f := ⌊q⌋
  let r := q - f
  if r < 1 / 2 then f
  else if 1 / 2 < r then f + 1
  else if f % 2 = 0 then f else f + 1

/-- Minimum intensity of a grayscale frame (`cv2.minMaxLoc`). -/
def listMin : List Nat → Nat
  | [] => 0
  | h :: t => t.foldl Nat.min h

/-- Maximum intensity of a grayscale frame (`cv2.minMaxLoc`). -/
def listMax : List Nat → Nat
  | [] => 0
  | h :: t => t.foldl Nat.max h

/-- One pixel of `cv2.convertScaleAbs(frame_gray, alpha, beta)` with
`alpha = 255 / (max_val - min_val)` and `beta = -min_val * alpha`:
`saturate_cast<uint8>(cvRound(|alpha * p + beta|))`. -/
def agcScale (minVal maxVal p : Nat) : Nat :=
  let alpha : ℚ := 255 / ((maxVal : ℚ) - (minVal : ℚ))
  let beta : ℚ := -(minVal : ℚ) * alpha
  min ((cvRound |alpha * (p : ℚ) + beta|).toNat) 255

/-- The auto-gain step on a grayscale frame (lines 548-556). -/
def agc (frame_gray : List Nat) : List Nat :=
  let min_val := listMin frame_gray
  let max_val := listMax frame_gray
  if max_val > min_val then frame_gray.map (agcScale min_val max_val)
  else frame_gray

/-! ### Custom-LUT application at render time (lines 559-601)

Before calling `cv2.applyColorMap` with a custom LUT the loop checks
shape `(256, 1, 3)`, dtype `uint8`, the `C_CONTIGUOUS` flag, total
size 768, and that the input frame is `uint8`.  If any check fails it
logs a validation error and falls back to
`cv2.cvtColor(frame_gray_agc, cv2.COLOR_GRAY2BGR)`; if the checks pass
but `cv2.applyColorMap` raises `cv2.error`, it logs the exception and
falls back the same way.  The numpy array metadata the checks read is
modelled explicitly; whether the external primitive raises is a
parameter. -/

/-- The metadata of a custom LUT ndarray, as inspected by the render
loop: its shape triple, dtype flag, contiguity flag, and entries. -/
structure NpLut where
  entries : List ByteColor
  shape0 : Nat
  shape1 : Nat
  shape2 : Nat
  dtypeUInt8 : Bool
  cContiguous : Bool
  deriving DecidableEq, Repr

/-- Attribute `ndarray.size`: the product of the shape. -/
def NpLut.size (l : NpLut) : Nat := l.shape0 * l.shape1 * l.shape2

/-- The image produced for one frame by the color-mapping step. -/
inductive RenderImage
  | colorMapped (lut : NpLut) (frame : List Nat)
  | grayBGR (frame : List Nat)
  deriving DecidableEq, Repr

/-- Outcome of the custom-LUT branch for one frame: the image plus
which diagnostic was emitted. -/
structure RenderResult where
  image : RenderImage
  validationErrorLogged : Bool
  exceptionLogged : Bool
  deriving DecidableEq, Repr

/-- The precondition checked right before `cv2.applyColorMap`
(lines 571-581). -/
def lutPrecondition (lut : NpLut) (frameIsUInt8 : Bool) : Prop :=
  lut.shape0 = 256 ∧ lut.shape1 = 1 ∧ lut.shape2 = 3 ∧
    lut.dtypeUInt8 = true ∧ lut.cContiguous = true ∧
    lut.size = 768 ∧ frameIsUInt8 = true

instance (lut : NpLut) (b : Bool) : Decidable (lutPrecondition lut b) := by
  unfold lutPrecondition; infer_instance

/-- The custom-LUT branch of `process_and_display` (lines 559-601) for
one frame.  `primitiveRaises` is true when the external
`cv2.applyColorMap` call raises `cv2.error` on this input. -/
def apply_custom_lut (lut : NpLut) (frame_gray_agc : List Nat)
    (frameIsUInt8 : Bool) (primitiveRaises : Bool) : RenderResult :=
  if lutPrecondition lut frameIsUInt8 then
    if primitiveRaises then
      ⟨RenderImage.grayBGR frame_gray_agc, false, true⟩
    else
      ⟨RenderImage.colorMapped lut frame_gray_agc, false, false⟩
  else
    ⟨RenderImage.grayBGR frame_gray_agc, true, false⟩

/-! ### The power/thermal state machine of the render loop
(`process_and_display`, lines 467-639, with `start_uvc_stream`
lines 390-403 and `stop_uvc_stream` lines 416-441)

One iteration of the `while self.is_running` body is a function of the
mutable session state and of the external observations of that
iteration (wall-clock time, temperature reading, button levels, and
whether the libuvc start call succeeds).  `set_cpu_governor` is
best-effort in the source; the state records the logical governor
requested.  Times are rational seconds. -/

/-- The mutable session state of `LeptonViewer` that the loop body
reads and writes. -/
structure ViewerState where
  is_running : Bool
  display_active : Bool
  stream_is_active : Bool
  /-- whether `self.uvc_devh` is a valid (truthy) handle -/
  devh_ok : Bool
  colormap_index : Nat
  /-- Value of `len(self.colormaps)` -/
  num_colormaps : Nat
  governor : String
  last_temp_shutdown_check_time : ℚ
  last_temp_log_time : ℚ
  last_button_a_time : ℚ
  last_button_b_time : ℚ
  last_display_time : ℚ
  start_time : ℚ
  frame_count : Nat
  queue : List Frame
  deriving DecidableEq, Repr

/-- The externally determined inputs of one loop iteration. -/
structure LoopInput where
  current_time : ℚ
  /-- Result of `get_cpu_temperature()`: `none` when the sensor is unreadable -/
  cpu_temp : Option ℚ
  buttonA_pressed : Bool
  buttonB_pressed : Bool
  /-- whether `uvc_start_streaming` returns success, should it be called -/
  start_ok : Bool
  deriving DecidableEq, Repr

/-- The result of one loop iteration: the new state and the observable
effects of the thermal-emergency path. -/
structure LoopOutput where
  state : ViewerState
  /-- Whether `shutdown_pi(...)` was called -/
  shutdown_issued : Bool
  /-- the `time.sleep(10)` grace delay ran -/
  grace_sleep : Bool
  /-- the iteration ended in `break` -/
  loop_break : Bool
  deriving DecidableEq, Repr

/-- Model of `LeptonViewer.start_uvc_stream` (lines 390-403): a no-op when the
stream is already active; fails when the handle is gone; on success
sets the active flag and `last_display_time`. -/
def start_uvc_stream (s : ViewerState) (t : ℚ) (start_ok : Bool) : ViewerState :=
  if s.stream_is_active then s
  else if ¬s.devh_ok then s
  else if start_ok then { s with stream_is_active := true, last_display_time := t }
  else s

/-- Model of `LeptonViewer.stop_uvc_stream` (lines 416-441): returns immediately
when the stream is not active, or (with a warning) when the handle is
gone; otherwise stops the stream and, in the `finally` block, clears
the active flag and drains the frame queue. -/
def stop_uvc_stream (s : ViewerState) : ViewerState :=
  if ¬s.stream_is_active then s
  else if ¬s.devh_ok then s
  else { s with stream_is_active := false, queue := [] }

/-- The temperature check at the top of the loop body (lines 491-503):
when the 30 s poll interval has elapsed and a reading is available, log
it on the slower 5 min cadence, and on a reading above the threshold
clear `is_running`, call `shutdown_pi`, sleep 10 s and `break`.  The
check timestamp is refreshed except on the `break` path, which skips
line 502.  `Sum.inr` is the `break`; `Sum.inl` continues the body. -/
def temp_check (s : ViewerState) (t : ℚ) (cpu_temp : Option ℚ) :
    ViewerState ⊕ LoopOutput :=
  if t - s.last_temp_shutdown_check_time > CPU_TEMP_SHUTDOWN_CHECK_INTERVAL_S then
    match cpu_temp with
    | some temp =>
      let s1 := if t - s.last_temp_log_time > CPU_TEMP_LOG_INTERVAL_S then
          { s with last_temp_log_time := t } else s
      if temp > CPU_TEMP_SHUTDOWN_THRESHOLD_C then
        Sum.inr ⟨{ s1 with is_running := false }, true, true, true⟩
      else
        Sum.inl { s1 with last_temp_shutdown_check_time := t }
    | none => Sum.inl { s with last_temp_shutdown_check_time := t }
  else Sum.inl s

/-- The two debounced button handlers (lines 506-530).  Button A cycles
the colormap index; button B toggles `display_active` and, depending on
the new value, either restores the run governor and starts the stream,
or stops the stream (draining the queue) and requests the power-save
governor. -/
def button_step (s : ViewerState) (inp : LoopInput) : ViewerState :=
  let t := inp.current_time
  let s1 :=
    if inp.buttonA_pressed ∧ t - s.last_button_a_time > 3 / 10 then
      { s with last_button_a_time := t,
               colormap_index := (s.colormap_index + 1) % s.num_colormaps }
    else s
  if inp.buttonB_pressed ∧ t - s1.last_button_b_time > 3 / 10 then
    let s2 := { s1 with last_button_b_time := t,
                        display_active := !s1.display_active }
    if s2.display_active then
      start_uvc_stream { s2 with governor := CPU_GOVERNOR_RUN } t inp.start_ok
    else
      { stop_uvc_stream s2 with governor := CPU_GOVERNOR_SAVE }
  else s1

/-- The frame-handling tail of the loop body (lines 532-632).  With the
display and stream active, a `get` on an empty queue times out and the
body `continue`s; a dequeued frame is processed and displayed, the
frame counter advances, and the 5 s throughput window may reset.  With
the display off the body just sleeps briefly. -/
def frame_step (s : ViewerState) (t : ℚ) : ViewerState :=
  if s.display_active ∧ s.stream_is_active then
    match frame_queue_get s.queue with
    | (none, _) => s
    | (some _, rest) =>
      let s1 := { s with queue := rest, frame_count := s.frame_count + 1,
                         last_display_time := t }
      if t - s1.start_time ≥ 5 then
        { s1 with frame_count := 0, start_time := t }
      else s1
  else s

/-- One execution of the `while self.is_running` body (lines 487-639):
temperature check, buttons, frame handling. -/
def loop_body (s : ViewerState) (inp : LoopInput) : LoopOutput :=
  match temp_check s inp.current_time inp.cpu_temp with
  | Sum.inr out => out
  | Sum.inl s1 =>
    let s2 := button_step s1 inp
    let s3 := frame_step s2 inp.current_time
    ⟨s3, false, false, false⟩

/-! ### Process exit behaviour (`LeptonViewer.run`, lines 641-654)

`initialize_display_and_buttons` calls `exit(1)` on any of its
failures, raising `SystemExit(1)`; `initialize_camera` raises
`RuntimeError` on any libuvc failure.  `run` wraps the setup and loop
in `try ... except KeyboardInterrupt ... except Exception`, and
`SystemExit` does not derive from `Exception`, so it escapes while a
`RuntimeError` is caught and merely logged.  After `run` returns, the
script ends and the interpreter exits with code 0. -/

/-- How a Python call ends: normal return, an `Exception`-derived
raise, or `SystemExit(code)` from `exit(code)`. -/
inductive PyOutcome
  | normal
  | exceptionRaised
  | systemExit (code : Nat)
  deriving DecidableEq, Repr

/-- Model of `initialize_display_and_buttons` (lines 367-388): every failure
path calls `exit(1)`. -/
def initialize_display_and_buttons (display_ok : Bool) : PyOutcome :=
  if display_ok then .normal else .systemExit 1

/-- Model of `initialize_camera` (lines 443-464): every failure path raises
`RuntimeError`. -/
def initialize_camera (camera_ok : Bool) : PyOutcome :=
  if camera_ok then .normal else .exceptionRaised

/-- The `try` body of `run` (lines 644-648), up to the point where the
render loop would start. -/
def run_setup (display_ok camera_ok : Bool) : PyOutcome :=
  match initialize_display_and_buttons display_ok with
  | .normal => initialize_camera camera_ok
  | e => e

/-- The process exit code of `LeptonViewer.run` followed by the end of
the script: `except Exception` swallows `Exception`-derived raises (the
script then finishes normally with code 0), while `SystemExit`
propagates and sets the exit code. -/
def run_exit_code (display_ok camera_ok : Bool) : Nat :=
  match run_setup display_ok camera_ok with
  | .systemExit c => c
  | .exceptionRaised => 0
  | .normal => 0

/-! ## Theorems -/

/-- Anything in the queue after a push was already there or is the
pushed frame. -/
lemma mem_frame_queue_push {items : List Frame} {x f : Frame}
    (h : f ∈ frame_queue_push items x) : f ∈ items ∨ f = x := by
  unfold frame_queue_push at h
  split at h
  · rcases List.mem_append.mp h with h1 | h1
    · exact Or.inl h1
    · exact Or.inr (List.mem_singleton.mp h1)
  · match items, h with
    | [], h => exact Or.inl h
    | a :: rest, h =>
      rcases List.mem_append.mp h with h1 | h1
      · exact Or.inl (List.mem_cons_of_mem _ h1)
      · exact Or.inr (List.mem_singleton.mp h1)

/-- C4: with the queue at its capacity of 2, a push evicts the oldest
item and retains the new one; a get on an empty queue yields no item
(after the bounded timeout) and leaves it empty; and the frame handling
of the loop body on an empty queue changes nothing — the consumer simply
retries on the next iteration. -/
theorem frame_queue_drop_oldest_and_empty_get
    (items : List Frame) (x : Frame) (hfull : items.length = BUF_SIZE) :
    frame_queue_push items x = items.tail ++ [x] ∧
    frame_queue_get [] = (none, []) ∧
    (∀ (s : ViewerState) (t : ℚ), s.queue = [] → frame_step s t = s) := by
  refine ⟨?_, rfl, ?_⟩
  · unfold frame_queue_push
    rw [if_neg (by omega)]
    match items, hfull with
    | a :: rest, _ => rfl
  · intro s t hq
    unfold frame_step
    rw [hq]
    split <;> rfl

theorem frame_queue_drop_oldest_witness :
    frame_queue_push [⟨160, 120, [1]⟩, ⟨160, 120, [2]⟩] ⟨160, 120, [3]⟩ =
      [⟨160, 120, [2]⟩, ⟨160, 120, [3]⟩] ∧
    frame_queue_get [] = (none, []) := by
  have h := frame_queue_drop_oldest_and_empty_get
    [⟨160, 120, [1]⟩, ⟨160, 120, [2]⟩] ⟨160, 120, [3]⟩ (by decide)
  exact ⟨h.1, h.2.1⟩

/-- C8: the producer-boundary invariant.  If every buffered frame has
the expected dimensions and byte length, then after the capture
callback runs on an arbitrary raw buffer every buffered frame still
does: a violating buffer is discarded and never enqueued. -/
theorem capture_boundary_invariant (raw : RawFrame) (items : List Frame)
    (hinv : ∀ f ∈ items, goodFrame f) :
    ∀ f ∈ py_frame_callback raw items, goodFrame f := by
  intro f hf
  unfold py_frame_callback at hf
  split at hf
  · exact hinv f hf
  · rename_i hdims
    split at hf
    · exact hinv f hf
    · rename_i hlen
      rcases mem_frame_queue_push hf with h1 | h1
      · exact hinv f h1
      · push_neg at hdims hlen
        subst h1
        exact ⟨hdims.2.2.1, hdims.2.2.2, hlen⟩

theorem capture_boundary_invariant_witness :
    goodFrame ⟨160, 120, List.replicate 38400 0⟩ := by
  have h := capture_boundary_invariant ⟨true, true, 160, 120, List.replicate 38400 0⟩ []
    (by simp)
  apply h
  unfold py_frame_callback
  rw [if_neg (by norm_num [CAM_WIDTH, CAM_HEIGHT]),
    if_neg (by norm_num [CAM_WIDTH, CAM_HEIGHT])]
  unfold frame_queue_push
  rw [if_pos (by norm_num [BUF_SIZE]), List.nil_append]
  exact List.mem_singleton_self _

/-- The rescale sends the minimum intensity to 0 (true whatever the
maximum is: the affine term cancels exactly). -/
lemma agcScale_min_pixel {m M : Nat} : agcScale m M m = 0 := by
  simp only [agcScale]
  have h0 : (255 : ℚ) / ((M : ℚ) - (m : ℚ)) * (m : ℚ) +
      -(m : ℚ) * ((255 : ℚ) / ((M : ℚ) - (m : ℚ))) = 0 := by ring
  rw [h0, abs_zero]
  norm_num [cvRound]

/-- The rescale sends the maximum intensity to 255 when `min < max`. -/
lemma agcScale_max_pixel {m M : Nat} (h : m < M) : agcScale m M M = 255 := by
  have hne : (M : ℚ) - (m : ℚ) ≠ 0 := by
    have hlt : (m : ℚ) < (M : ℚ) := by exact_mod_cast h
    intro hc; linarith
  have h0 : (255 : ℚ) / ((M : ℚ) - (m : ℚ)) * (M : ℚ) +
      -(m : ℚ) * ((255 : ℚ) / ((M : ℚ) - (m : ℚ))) = 255 := by
    field_simp
    ring
  simp only [agcScale]
  rw [h0]
  norm_num [cvRound]
  decide

/-- The value `alpha * p + beta` is the affine map `255 * (p - min) / (max - min)`. -/
lemma agcScale_formula (m M p : Nat) :
    agcScale m M p =
      min ((cvRound |255 * ((p : ℚ) - (m : ℚ)) / ((M : ℚ) - (m : ℚ))|).toNat) 255 := by
  have h0 : (255 : ℚ) / ((M : ℚ) - (m : ℚ)) * (p : ℚ) +
      -(m : ℚ) * ((255 : ℚ) / ((M : ℚ) - (m : ℚ))) =
      255 * ((p : ℚ) - (m : ℚ)) / ((M : ℚ) - (m : ℚ)) := by ring
  simp only [agcScale]
  rw [h0]

/-- C5: auto-gain.  A flat frame (`max == min`) is returned unchanged
with no division; otherwise the frame is mapped pixelwise by the affine
rescale `255 * (p - min) / (max - min)` (rounded and clipped to
`[0, 255]`), which sends the minimum to 0 and the maximum to 255. -/
theorem auto_gain_spec (frame : List Nat) :
    (listMax frame = listMin frame → agc frame = frame) ∧
    (listMin frame < listMax frame →
      agc frame = frame.map (agcScale (listMin frame) (listMax frame)) ∧
      agcScale (listMin frame) (listMax frame) (listMin frame) = 0 ∧
      agcScale (listMin frame) (listMax frame) (listMax frame) = 255 ∧
      (∀ p : Nat, agcScale (listMin frame) (listMax frame) p =
        min ((cvRound |255 * ((p : ℚ) - (listMin frame : ℚ)) /
          ((listMax frame : ℚ) - (listMin frame : ℚ))|).toNat) 255) ∧
      (∀ p : Nat, agcScale (listMin frame) (listMax frame) p ≤ 255)) := by
  constructor
  · intro h
    simp only [agc]
    rw [if_neg (by omega)]
  · intro h
    refine ⟨?_, agcScale_min_pixel, agcScale_max_pixel h,
      fun p => agcScale_formula _ _ p, fun p => ?_⟩
    · simp only [agc]
      rw [if_pos h]
    · rw [agcScale_formula]
      exact min_le_right _ _

theorem auto_gain_witness :
    agcScale 50 200 50 = 0 ∧ agcScale 50 200 200 = 255 ∧
    agc [7, 7, 7] = [7, 7, 7] ∧ agcScale 50 200 125 ≤ 255 := by
  have h2 := (auto_gain_spec [50, 125, 200]).2 (by decide)
  have h1 := (auto_gain_spec [7, 7, 7]).1 (by decide)
  exact ⟨h2.2.1, h2.2.2.1, h1, h2.2.2.2.2 125⟩

/-- C7 counterexample: a capture (camera) setup failure does not
produce a non-zero exit code — `initialize_camera` raises
`RuntimeError`, the `except Exception` handler of `run` swallows it, and the script
finishes with exit code 0. -/
theorem run_exit_code_camera_counterexample :
    ¬ (run_exit_code true false ≠ 0) := by decide

/-- C7 (amended): the process exits 0 on a clean run and exits with the
non-zero code 1 when display setup fails, but a capture setup failure
is caught by the generic exception handler of `run` and the process exits 0
after cleanup. -/
theorem run_exit_code_spec_amended :
    run_exit_code true true = 0 ∧
    run_exit_code false true = 1 ∧
    run_exit_code false false = 1 ∧
    run_exit_code true false = 0 := by decide

/-- The INTER_LINEAR resample always yields exactly 256 entries. -/
lemma resizeLinear256_length (src : List ByteColor) :
    (resizeLinear256 src).length = 256 := by
  simp [resizeLinear256]

/-- C3: per-table normalization of `load_custom_luts`.  An empty parsed
table is rejected; a 256-entry table is accepted unchanged; any other
length is resampled by linear interpolation to exactly 256 entries, and
the entry-count validation then passes, so the resampled table is
appended. -/
theorem load_external_table_normalization (lut : List ByteColor) :
    (lut.length = 0 → process_lut_table lut = none) ∧
    (lut.length = 256 → process_lut_table lut = some lut) ∧
    (lut.length ≠ 0 → lut.length ≠ 256 →
      process_lut_table lut = some (resizeLinear256 lut) ∧
        (resizeLinear256 lut).length = 256) := by
  refine ⟨?_, ?_, ?_⟩
  · intro h; unfold process_lut_table; rw [if_pos h]
  · intro h; unfold process_lut_table
    rw [if_neg (by omega), if_pos h, if_pos h]
  · intro h0 h256
    unfold process_lut_table
    rw [if_neg h0, if_neg h256, if_pos (resizeLinear256_length lut)]
    exact ⟨rfl, resizeLinear256_length lut⟩

/-- Ramp `np.linspace` produces exactly `n` samples. -/
lemma linspace3_length (a b : Color3) (n : Nat) : (linspace3 a b n).length = n := by
  simp [linspace3]

/-- With a valid step and a supported color, `create_custom_lut` takes
the concatenation path and neither fallback branch, returning the
black-to-white ramp of length `256 - step` followed by the channel
gradient of length `step`. -/
lemma create_custom_lut_valid_eq (color : String) (step : Int)
    (c0 c1 : Color3)
    (h1 : 1 ≤ step) (h2 : step ≤ 255)
    (hsel : (color = "red" ∧ c0 = (64, 0, 0) ∧ c1 = (255, 0, 0)) ∨
            (color = "green" ∧ c0 = (0, 64, 0) ∧ c1 = (0, 255, 0)) ∨
            (color = "blue" ∧ c0 = (0, 0, 64) ∧ c1 = (0, 0, 255))) :
    create_custom_lut color step =
      .ok ⟨linspace3 (0, 0, 0) (255, 255, 255) (256 - step).toNat ++
             linspace3 c0 c1 step.toNat, false, false⟩ := by
  have hlen : (linspace3 (0, 0, 0) (255, 255, 255) (256 - step).toNat ++
      linspace3 c0 c1 step.toNat).length = 256 := by
    rw [List.length_append, linspace3_length, linspace3_length]
    omega
  unfold create_custom_lut
  rw [if_neg (by omega)]
  rcases hsel with ⟨rfl, rfl, rfl⟩ | ⟨rfl, rfl, rfl⟩ | ⟨rfl, rfl, rfl⟩ <;>
  · simp only [if_pos rfl, String.reduceEq, if_false, if_true, reduceIte]
    rw [if_neg (show ¬(256 - step ≤ 0) by omega)]
    simp only []
    rw [if_neg (by rw [hlen]; omega)]

/-- Each sample of `np.linspace a b n` lies below 255 when both
endpoints do: the sample is a convex combination of the endpoints. -/
lemma linspaceSample_le {a b : ℚ} (ha : a ≤ 255) (hb : b ≤ 255) {n i : Nat} (hi : i < n) :
    linspaceSample a b n i ≤ 255 := by
  unfold linspaceSample
  rcases Nat.lt_or_ge n 2 with hn | hn
  · have hi0 : i = 0 := by omega
    subst hi0
    simp [ha]
  · have hn1 : (0 : ℚ) < (n : ℚ) - 1 := by
      have : (2 : ℚ) ≤ (n : ℚ) := by exact_mod_cast hn
      linarith
    have hit : (i : ℚ) ≤ (n : ℚ) - 1 := by
      have : (i : ℚ) + 1 ≤ (n : ℚ) := by exact_mod_cast hi
      linarith
    have hi0 : (0 : ℚ) ≤ (i : ℚ) := by positivity
    rcases le_or_lt a b with hab | hab
    · have hkey : (i : ℚ) * (b - a) / ((n : ℚ) - 1) ≤ b - a := by
        rw [div_le_iff₀ hn1]
        nlinarith
      linarith
    · have hkey : (i : ℚ) * (b - a) / ((n : ℚ) - 1) ≤ 0 := by
        apply div_nonpos_of_nonpos_of_nonneg
        · nlinarith
        · linarith
      linarith

/-- Cast `.astype(np.uint8)` of a value below 255 fits in a byte. -/
lemma toByte_le {q : ℚ} (h : q ≤ 255) : toByte q ≤ 255 := by
  unfold toByte
  have : ⌊q⌋ ≤ 255 := by
    calc ⌊q⌋ ≤ ⌊(255 : ℚ)⌋ := Int.floor_le_floor h
    _ = 255 := by norm_num
  omega

/-- Every entry of a linspace ramp between byte-bounded endpoints is a
byte-bounded color triple. -/
lemma linspace3_mem_le {a b : Color3} {n : Nat}
    (ha1 : a.1 ≤ 255) (ha2 : a.2.1 ≤ 255) (ha3 : a.2.2 ≤ 255)
    (hb1 : b.1 ≤ 255) (hb2 : b.2.1 ≤ 255) (hb3 : b.2.2 ≤ 255)
    {c : ByteColor} (hc : c ∈ linspace3 a b n) :
    c.1 ≤ 255 ∧ c.2.1 ≤ 255 ∧ c.2.2 ≤ 255 := by
  simp only [linspace3, List.mem_map, List.mem_range] at hc
  obtain ⟨i, hi, rfl⟩ := hc
  exact ⟨toByte_le (linspaceSample_le ha1 hb1 hi),
         toByte_le (linspaceSample_le ha2 hb2 hi),
         toByte_le (linspaceSample_le ha3 hb3 hi)⟩

/-- Core result shared by the gradient claims: a valid step and a
supported color give a 256-entry byte-bounded table with both fallback
flags clear. -/
lemma build_gradient_ok (color : String) (step : Int)
    (hcolor : color = "red" ∨ color = "green" ∨ color = "blue")
    (h1 : 1 ≤ step) (h2 : step ≤ 255) :
    ∃ r, create_custom_lut color step = .ok r ∧ r.lut.length = 256 ∧
      (∀ c ∈ r.lut, c.1 ≤ 255 ∧ c.2.1 ≤ 255 ∧ c.2.2 ≤ 255) ∧
      r.adjusted = false ∧ r.reinterpolated = false := by
  have main : ∀ (c0 c1 : Color3),
      ((color = "red" ∧ c0 = (64, 0, 0) ∧ c1 = (255, 0, 0)) ∨
       (color = "green" ∧ c0 = (0, 64, 0) ∧ c1 = (0, 255, 0)) ∨
       (color = "blue" ∧ c0 = (0, 0, 64) ∧ c1 = (0, 0, 255))) →
      c0.1 ≤ 255 ∧ c0.2.1 ≤ 255 ∧ c0.2.2 ≤ 255 →
      c1.1 ≤ 255 ∧ c1.2.1 ≤ 255 ∧ c1.2.2 ≤ 255 →
      ∃ r, create_custom_lut color step = .ok r ∧ r.lut.length = 256 ∧
        (∀ c ∈ r.lut, c.1 ≤ 255 ∧ c.2.1 ≤ 255 ∧ c.2.2 ≤ 255) ∧
        r.adjusted = false ∧ r.reinterpolated = false := by
    intro c0 c1 hsel hb0 hb1
    refine ⟨_, create_custom_lut_valid_eq color step c0 c1 h1 h2 hsel, ?_, ?_, rfl, rfl⟩
    · rw [List.length_append, linspace3_length, linspace3_length]
      omega
    · intro c hc
      rcases List.mem_append.mp hc with h | h
      · exact linspace3_mem_le (by norm_num) (by norm_num) (by norm_num)
          (by norm_num) (by norm_num) (by norm_num) h
      · exact linspace3_mem_le hb0.1 hb0.2.1 hb0.2.2 hb1.1 hb1.2.1 hb1.2.2 h
  rcases hcolor with rfl | rfl | rfl
  · exact main (64, 0, 0) (255, 0, 0) (Or.inl ⟨rfl, rfl, rfl⟩)
      (by norm_num) (by norm_num)
  · exact main (0, 64, 0) (0, 255, 0) (Or.inr (Or.inl ⟨rfl, rfl, rfl⟩))
      (by norm_num) (by norm_num)
  · exact main (0, 0, 64) (0, 0, 255) (Or.inr (Or.inr ⟨rfl, rfl, rfl⟩))
      (by norm_num) (by norm_num)

/-- C2: for every step in `[1, 255]` and every supported color channel,
`create_custom_lut` returns a table of exactly 256 entries, each a
3-byte color; for every step `≤ 0` or `≥ 256` it raises `ValueError`
(the `InvalidParameter` failure) and returns no table. -/
theorem build_gradient_table_spec (color : String) (step : Int)
    (hcolor : color = "red" ∨ color = "green" ∨ color = "blue") :
    (1 ≤ step → step ≤ 255 →
      ∃ r, create_custom_lut color step = .ok r ∧ r.lut.length = 256 ∧
        ∀ c ∈ r.lut, c.1 ≤ 255 ∧ c.2.1 ≤ 255 ∧ c.2.2 ≤ 255) ∧
    (step ≤ 0 ∨ step ≥ 256 →
      create_custom_lut color step =
        .error "color_gradient_step must be between 1 and 255.") := by
  constructor
  · intro h1 h2
    obtain ⟨r, hr, hlen, hmem, _, _⟩ := build_gradient_ok color step hcolor h1 h2
    exact ⟨r, hr, hlen, hmem⟩
  · intro h
    unfold create_custom_lut
    rw [if_pos h]

theorem build_gradient_table_witness :
    (∃ r, create_custom_lut "red" 64 = .ok r ∧ r.lut.length = 256 ∧
      ∀ c ∈ r.lut, c.1 ≤ 255 ∧ c.2.1 ≤ 255 ∧ c.2.2 ≤ 255) ∧
    create_custom_lut "red" 0 =
      .error "color_gradient_step must be between 1 and 255." ∧
    create_custom_lut "blue" 300 =
      .error "color_gradient_step must be between 1 and 255." :=
  ⟨(build_gradient_table_spec "red" 64 (Or.inl rfl)).1 (by norm_num) (by norm_num),
   (build_gradient_table_spec "red" 0 (Or.inl rfl)).2 (by norm_num),
   (build_gradient_table_spec "blue" 300 (Or.inr (Or.inr rfl))).2 (by norm_num)⟩

/-- C10: under the validated precondition `step ∈ [1, 255]`, the
black-to-white segment of length `256 - step` concatenated with the
color segment of length `step` always has exactly 256 entries, so the
`BLACK_TO_WHITE_STEP <= 0` adjustment branch and the detail-losing
re-interpolation branch never run. -/
theorem gradient_fallback_branches_unreachable (color : String) (step : Int)
    (hcolor : color = "red" ∨ color = "green" ∨ color = "blue")
    (h1 : 1 ≤ step) (h2 : step ≤ 255) :
    ∃ r, create_custom_lut color step = .ok r ∧ r.lut.length = 256 ∧
      r.adjusted = false ∧ r.reinterpolated = false := by
  obtain ⟨r, hr, hlen, _, ha, hri⟩ := build_gradient_ok color step hcolor h1 h2
  exact ⟨r, hr, hlen, ha, hri⟩

theorem gradient_fallback_branches_witness :
    ∃ r, create_custom_lut "green" 255 = .ok r ∧ r.lut.length = 256 ∧
      r.adjusted = false ∧ r.reinterpolated = false :=
  gradient_fallback_branches_unreachable "green" 255 (Or.inr (Or.inl rfl))
    (by norm_num) (by norm_num)

theorem load_external_table_witness :
    (process_lut_table [] = none) ∧
    (process_lut_table [(0, 0, 0), (255, 255, 255)] =
      some (resizeLinear256 [(0, 0, 0), (255, 255, 255)]) ∧
      (resizeLinear256 [(0, 0, 0), (255, 255, 255)]).length = 256) :=
  ⟨(load_external_table_normalization []).1 rfl,
   (load_external_table_normalization [(0, 0, 0), (255, 255, 255)]).2.2
     (by decide) (by decide)⟩

/-- C9: at render time, a CustomTable that fails the 256x1x3 /
uint8 / contiguity / size precondition — or on which the external
color-mapping primitive raises — produces the grayscale color image of
the frame together with a logged diagnostic, never a crash; and the
step is a pure per-frame function, so a table passing its checks on the
next frame renders by lookup as usual. -/
theorem custom_lut_render_fallback (lut : NpLut) (frame : List Nat)
    (frameU8 raises : Bool) :
    (¬ lutPrecondition lut frameU8 ∨ raises = true →
      (apply_custom_lut lut frame frameU8 raises).image = RenderImage.grayBGR frame ∧
      ((apply_custom_lut lut frame frameU8 raises).validationErrorLogged = true ∨
       (apply_custom_lut lut frame frameU8 raises).exceptionLogged = true)) ∧
    (lutPrecondition lut frameU8 → raises = false →
      apply_custom_lut lut frame frameU8 raises =
        ⟨RenderImage.colorMapped lut frame, false, false⟩) := by
  constructor
  · intro h
    unfold apply_custom_lut
    split_ifs with hpre hr
    · exact ⟨rfl, Or.inr rfl⟩
    · rcases h with h | h
      · exact absurd hpre h
      · exact absurd h hr
    · exact ⟨rfl, Or.inl rfl⟩
  · intro hpre hr
    subst hr
    unfold apply_custom_lut
    rw [if_pos hpre, if_neg (by simp)]

theorem custom_lut_render_fallback_witness :
    (apply_custom_lut ⟨[], 10, 1, 3, true, true⟩ [5] true false).image =
      RenderImage.grayBGR [5] ∧
    ((apply_custom_lut ⟨[], 10, 1, 3, true, true⟩ [5] true false).validationErrorLogged = true ∨
     (apply_custom_lut ⟨[], 10, 1, 3, true, true⟩ [5] true false).exceptionLogged = true) :=
  (custom_lut_render_fallback ⟨[], 10, 1, 3, true, true⟩ [5] true false).1
    (Or.inl (by decide))

/-- C1: whenever the 30 s thermal poll fires and the reading strictly
exceeds the 75.0 C threshold, the loop body clears `is_running`, issues
the shutdown request, sleeps the 10 s grace delay, and breaks out of
the render loop — whatever the current mode (the state, in particular
`display_active` and `stream_is_active`, is arbitrary). -/
theorem thermal_emergency_forces_shutdown (s : ViewerState) (inp : LoopInput) (temp : ℚ)
    (hdue : inp.current_time - s.last_temp_shutdown_check_time >
      CPU_TEMP_SHUTDOWN_CHECK_INTERVAL_S)
    (hread : inp.cpu_temp = some temp)
    (hot : temp > CPU_TEMP_SHUTDOWN_THRESHOLD_C) :
    (loop_body s inp).state.is_running = false ∧
    (loop_body s inp).shutdown_issued = true ∧
    (loop_body s inp).grace_sleep = true ∧
    (loop_body s inp).loop_break = true := by
  unfold loop_body temp_check
  rw [hread, if_pos hdue]
  simp only []
  rw [if_pos hot]
  exact ⟨rfl, rfl, rfl, rfl⟩

theorem thermal_emergency_witness :
    (loop_body ⟨true, false, false, true, 0, 8, "powersave", 0, 0, 0, 0, 0, 0, 0, []⟩
      ⟨31, some 80, false, false, true⟩).state.is_running = false ∧
    (loop_body ⟨true, false, false, true, 0, 8, "powersave", 0, 0, 0, 0, 0, 0, 0, []⟩
      ⟨31, some 80, false, false, true⟩).shutdown_issued = true ∧
    (loop_body ⟨true, false, false, true, 0, 8, "powersave", 0, 0, 0, 0, 0, 0, 0, []⟩
      ⟨31, some 80, false, false, true⟩).grace_sleep = true ∧
    (loop_body ⟨true, false, false, true, 0, 8, "powersave", 0, 0, 0, 0, 0, 0, 0, []⟩
      ⟨31, some 80, false, false, true⟩).loop_break = true :=
  thermal_emergency_forces_shutdown
    ⟨true, false, false, true, 0, 8, "powersave", 0, 0, 0, 0, 0, 0, 0, []⟩
    ⟨31, some 80, false, false, true⟩ 80
    (by norm_num [CPU_TEMP_SHUTDOWN_CHECK_INTERVAL_S]) rfl
    (by norm_num [CPU_TEMP_SHUTDOWN_THRESHOLD_C])

/-- A toggle press while the display is on: the display goes off, the
stream stops, the queue drains, the power-save governor is requested,
and the body does not break. -/
lemma loop_body_toggle_off (s : ViewerState) (inp : LoopInput)
    (hrun : s.display_active = true) (hstream : s.stream_is_active = true)
    (hdev : s.devh_ok = true)
    (hnotemp : ¬(inp.current_time - s.last_temp_shutdown_check_time >
      CPU_TEMP_SHUTDOWN_CHECK_INTERVAL_S))
    (hA : inp.buttonA_pressed = false)
    (hB : inp.buttonB_pressed = true)
    (hdb : inp.current_time - s.last_button_b_time > 3 / 10) :
    loop_body s inp =
      ⟨{ s with display_active := false, stream_is_active := false, queue := [],
                governor := CPU_GOVERNOR_SAVE,
                last_button_b_time := inp.current_time }, false, false, false⟩ := by
  unfold loop_body temp_check button_step frame_step stop_uvc_stream
  rw [if_neg hnotemp]
  simp only [hA, hB, hrun, hstream, hdev, hdb, Bool.false_eq_true, false_and, if_false,
    Bool.not_true, eq_self_iff_true, true_and, and_true, if_true, not_true, not_false_iff,
    Bool.not_false, ite_true, ite_false]

/-- A toggle press while the display is off and the stream stopped, the
device handle still valid and the libuvc start succeeding: the display
comes back on, the run governor is requested and the stream restarts. -/
lemma loop_body_toggle_on (s : ViewerState) (inp : LoopInput)
    (hoff : s.display_active = false) (hstream : s.stream_is_active = false)
    (hdev : s.devh_ok = true) (hq : s.queue = [])
    (hnotemp : ¬(inp.current_time - s.last_temp_shutdown_check_time >
      CPU_TEMP_SHUTDOWN_CHECK_INTERVAL_S))
    (hA : inp.buttonA_pressed = false)
    (hB : inp.buttonB_pressed = true)
    (hdb : inp.current_time - s.last_button_b_time > 3 / 10)
    (hok : inp.start_ok = true) :
    loop_body s inp =
      ⟨{ s with display_active := true, stream_is_active := true,
                governor := CPU_GOVERNOR_RUN,
                last_button_b_time := inp.current_time,
                last_display_time := inp.current_time }, false, false, false⟩ := by
  unfold loop_body temp_check button_step frame_step start_uvc_stream frame_queue_get
  rw [if_neg hnotemp]
  simp only [hA, hB, hoff, hstream, hdev, hdb, hq, hok, Bool.false_eq_true, false_and,
    if_false, Bool.not_true, Bool.not_false, eq_self_iff_true, true_and, and_true, if_true,
    not_true, not_false_iff, ite_true, ite_false]

/-- C6: from RUNNING (display on, stream active), a debounced toggle
press stops the capture stream, drains the frame queue and enters
POWERSAVE (display off, power-save governor); a second debounced press
from POWERSAVE restarts the capture stream and returns to RUNNING. -/
theorem powersave_toggle_roundtrip (s : ViewerState) (inp1 inp2 : LoopInput)
    (hrun : s.display_active = true) (hstream : s.stream_is_active = true)
    (hdev : s.devh_ok = true)
    (hnotemp1 : ¬(inp1.current_time - s.last_temp_shutdown_check_time >
      CPU_TEMP_SHUTDOWN_CHECK_INTERVAL_S))
    (hA1 : inp1.buttonA_pressed = false)
    (hB1 : inp1.buttonB_pressed = true)
    (hdb1 : inp1.current_time - s.last_button_b_time > 3 / 10)
    (hnotemp2 : ¬(inp2.current_time - s.last_temp_shutdown_check_time >
      CPU_TEMP_SHUTDOWN_CHECK_INTERVAL_S))
    (hA2 : inp2.buttonA_pressed = false)
    (hB2 : inp2.buttonB_pressed = true)
    (hdb2 : inp2.current_time - inp1.current_time > 3 / 10)
    (hok2 : inp2.start_ok = true) :
    (loop_body s inp1).state.display_active = false ∧
    (loop_body s inp1).state.stream_is_active = false ∧
    (loop_body s inp1).state.queue = [] ∧
    (loop_body s inp1).state.governor = CPU_GOVERNOR_SAVE ∧
    (loop_body s inp1).loop_break = false ∧
    (loop_body (loop_body s inp1).state inp2).state.display_active = true ∧
    (loop_body (loop_body s inp1).state inp2).state.stream_is_active = true ∧
    (loop_body (loop_body s inp1).state inp2).state.governor = CPU_GOVERNOR_RUN ∧
    (loop_body (loop_body s inp1).state inp2).loop_break = false := by
  rw [loop_body_toggle_off s inp1 hrun hstream hdev hnotemp1 hA1 hB1 hdb1]
  dsimp only
  rw [loop_body_toggle_on
      { s with display_active := false, stream_is_active := false, queue := [],
               governor := CPU_GOVERNOR_SAVE, last_button_b_time := inp1.current_time }
      inp2 rfl rfl hdev rfl hnotemp2 hA2 hB2 hdb2 hok2]
  exact ⟨rfl, rfl, rfl, rfl, rfl, rfl, rfl, rfl, rfl⟩

theorem powersave_toggle_witness :
    (loop_body ⟨true, true, true, true, 0, 8, "ondemand", 0, 0, 0, 0, 0, 0, 0,
        [⟨160, 120, [0]⟩]⟩ ⟨1, none, false, true, true⟩).state.display_active = false ∧
    (loop_body ⟨true, true, true, true, 0, 8, "ondemand", 0, 0, 0, 0, 0, 0, 0,
        [⟨160, 120, [0]⟩]⟩ ⟨1, none, false, true, true⟩).state.stream_is_active = false ∧
    (loop_body ⟨true, true, true, true, 0, 8, "ondemand", 0, 0, 0, 0, 0, 0, 0,
        [⟨160, 120, [0]⟩]⟩ ⟨1, none, false, true, true⟩).state.queue = [] ∧
    (loop_body ⟨true, true, true, true, 0, 8, "ondemand", 0, 0, 0, 0, 0, 0, 0,
        [⟨160, 120, [0]⟩]⟩ ⟨1, none, false, true, true⟩).state.governor = CPU_GOVERNOR_SAVE ∧
    (loop_body ⟨true, true, true, true, 0, 8, "ondemand", 0, 0, 0, 0, 0, 0, 0,
        [⟨160, 120, [0]⟩]⟩ ⟨1, none, false, true, true⟩).loop_break = false ∧
    (loop_body (loop_body ⟨true, true, true, true, 0, 8, "ondemand", 0, 0, 0, 0, 0, 0, 0,
        [⟨160, 120, [0]⟩]⟩ ⟨1, none, false, true, true⟩).state
      ⟨2, none, false, true, true⟩).state.display_active = true ∧
    (loop_body (loop_body ⟨true, true, true, true, 0, 8, "ondemand", 0, 0, 0, 0, 0, 0, 0,
        [⟨160, 120, [0]⟩]⟩ ⟨1, none, false, true, true⟩).state
      ⟨2, none, false, true, true⟩).state.stream_is_active = true ∧
    (loop_body (loop_body ⟨true, true, true, true, 0, 8, "ondemand", 0, 0, 0, 0, 0, 0, 0,
        [⟨160, 120, [0]⟩]⟩ ⟨1, none, false, true, true⟩).state
      ⟨2, none, false, true, true⟩).state.governor = CPU_GOVERNOR_RUN ∧
    (loop_body (loop_body ⟨true, true, true, true, 0, 8, "ondemand", 0, 0, 0, 0, 0, 0, 0,
        [⟨160, 120, [0]⟩]⟩ ⟨1, none, false, true, true⟩).state
      ⟨2, none, false, true, true⟩).loop_break = false :=
  powersave_toggle_roundtrip
    ⟨true, true, true, true, 0, 8, "ondemand", 0, 0, 0, 0, 0, 0, 0, [⟨160, 120, [0]⟩]⟩
    ⟨1, none, false, true, true⟩ ⟨2, none, false, true, true⟩
    rfl rfl rfl (by norm_num [CPU_TEMP_SHUTDOWN_CHECK_INTERVAL_S]) rfl rfl (by norm_num)
    (by norm_num [CPU_TEMP_SHUTDOWN_CHECK_INTERVAL_S]) rfl rfl (by norm_num) rfl
